import Mathlib

/-!
Verification development for `Presentation_Converter.py`.

The program is a single-script Streamlit application: it generates a
presentation-style HTML document through the OpenAI API, previews it, and
exports it to PDF either with WeasyPrint (from the generated HTML) or with
ReportLab (`create_pdf`, driven by a user-supplied JSON slide list, with
bullets word-wrapped by Python `textwrap.wrap`).

The model below embeds the script shallowly:

* Python strings are `List Char` (`Str`); `str.strip`, `str.replace`,
  `str.expandtabs` and `textwrap.wrap` (default options) are translated from
  CPython's implementations.
* The ReportLab canvas is modelled as a recorder of abstract drawing
  operations; `showPage` closes the current page.  Float coordinates are
  idealised as exact rationals; the numeric values play no role in the
  properties proved here beyond recording the layout sequence.
* One Streamlit rerun of the script is the function `run`: it consumes an
  environment (widget contents, button states, and oracles standing for the
  network and the PDF libraries) together with the session state, and yields
  the new session state plus the rerun's observable effects (API calls,
  library calls, downloads, messages, temp-file status).
-/

set_option maxHeartbeats 1000000

namespace PresConv

/-- Python strings are modelled as lists of Unicode characters
(`len` = list length, indexing = list indexing). -/
abbrev Str := List Char

/-! ### Python string primitives used by the script -/

/-- The whitespace characters recognised by Python `textwrap`
(`_whitespace = "\t\n\x0b\x0c\r "`) and by `str.strip` on the ASCII range. -/
def isWS (c : Char) : Bool :=
  (c == '\t') || (c == '\n') || (c == '\x0B') || (c == '\x0C') || (c == '\r') || (c == ' ')

/-- Python `str.strip()`: remove leading and trailing whitespace. -/
def pyStrip (s : Str) : Str :=
  ((s.dropWhile isWS).reverse.dropWhile isWS).reverse

/-- Python `str.expandtabs()` (tabsize 8): replace each tab with spaces up to
the next multiple-of-8 column; newline and carriage return reset the column. -/
def expandTabs : Nat → Str → Str
  | _, [] => []
  | col, c :: cs =>
    if c = '\t' then
      List.replicate (8 - col % 8) ' ' ++ expandTabs (col + (8 - col % 8)) cs
    else if c = '\n' ∨ c = '\r' then
      c :: expandTabs 0 cs
    else
      c :: expandTabs (col + 1) cs

/-- `TextWrapper._munge_whitespace` with the default options
(`expand_tabs=True`, `replace_whitespace=True`): expand tabs, then turn every
whitespace character into a single space. -/
def mungeWhitespace (s : Str) : Str :=
  (expandTabs 0 s).map (fun c => if isWS c then ' ' else c)

/-- Split a string into maximal runs of whitespace / non-whitespace
characters (the chunks produced by `TextWrapper._split`; the extra split
points that `break_on_hyphens` inserts inside hyphenated words are not
represented — they move break positions but do not affect the properties
proved here, which hold for arbitrary chunk lists). -/
def splitRuns : Nat → Str → List Str
  | 0, _ => []
  | _, [] => []
  | fuel + 1, c :: cs =>
    ((c :: cs).takeWhile (fun x => isWS x == isWS c)) ::
      splitRuns fuel ((c :: cs).dropWhile (fun x => isWS x == isWS c))

/-- Chunks of a munged string. -/
def splitChunks (s : Str) : List Str :=
  splitRuns s.length s

/-- Total number of characters in a list of chunks. -/
def sumLen : List Str → Nat
  | [] => 0
  | c :: cs => c.length + sumLen cs

/-- Is a chunk pure whitespace (`chunk.strip() == ''`)? -/
def chunkIsWS (c : Str) : Bool := c.all isWS

/-- The greedy inner loop of `TextWrapper._wrap_chunks`: starting from
accumulated length `k`, move chunks onto the current line while the line
stays within `w` columns.  Returns (line chunks, new length, rest). -/
def greedyTake (w : Nat) : Nat → List Str → List Str × Nat × List Str
  | k, [] => ([], k, [])
  | k, ch :: rest =>
    if k + ch.length ≤ w then
      let r := greedyTake w (k + ch.length) rest
      (ch :: r.1, r.2.1, r.2.2)
    else
      ([], k, ch :: rest)

/-- Index of the last occurrence of `c` in a list, if any. -/
def rfindAux (c : Char) : Str → Option Nat
  | [] => none
  | x :: xs =>
    match rfindAux c xs with
    | some i => some (i + 1)
    | none => if x = c then some 0 else none

/-- Python `s.rfind(c, 0, stop)` (as an `Option`): last index of `c` among
the first `stop` characters of `s`. -/
def pyRfind (c : Char) (s : Str) (stop : Nat) : Option Nat :=
  rfindAux c (s.take stop)

/-- Where `_handle_long_word` breaks an over-long chunk: at the space left
on the line, or just after the last hyphen that fits (when the chunk
overflows and the hyphen does not start a run of leading hyphens). -/
def longWordBreak (spaceLeft : Nat) (ch : Str) : Nat :=
  if spaceLeft < ch.length then
    match pyRfind '-' ch spaceLeft with
    | some h =>
      if 0 < h ∧ (ch.take h).any (fun c => c != '-') then h + 1 else spaceLeft
    | none => spaceLeft
  else spaceLeft

/-- `TextWrapper._handle_long_word` with the default options
(`break_long_words=True`, `break_on_hyphens=True`): chop the head chunk at
the space left on the current line, preferring a break just after the last
hyphen that fits. -/
def handleLongWord (w k : Nat) : List Str → List Str → List Str × List Str
  | [], curline => (curline, [])
  | ch :: rest, curline =>
    let spaceLeft := if w < 1 then 1 else w - k
    let e := longWordBreak spaceLeft ch
    (curline ++ [ch.take e], ch.drop e :: rest)

/-- One iteration of the outer loop of `TextWrapper._wrap_chunks` after the
leading-whitespace drop: greedily fill a line, break an over-long head chunk,
and drop a trailing whitespace chunk.  Returns (line chunks, rest). -/
def buildLine (w : Nat) (chunks : List Str) : List Str × List Str :=
  let g := greedyTake w 0 chunks
  let hl :=
    match g.2.2 with
    | [] => (g.1, ([] : List Str))
    | ch :: rs => if w < ch.length then handleLongWord w g.2.1 (ch :: rs) g.1 else (g.1, ch :: rs)
  let line :=
    match hl.1.getLast? with
    | some last => if chunkIsWS last then hl.1.dropLast else hl.1
    | none => hl.1
  (line, hl.2)

/-- The outer loop of `TextWrapper._wrap_chunks` (default options,
empty indents, no `max_lines`), fuelled: drop a leading whitespace chunk
(except on the first line), build a line and append it when non-empty.
The fuel passed by `wrap` is always sufficient. -/
def wrapChunksGo (w : Nat) : Nat → List Str → List Str → List Str
  | 0, _, acc => acc
  | _ + 1, [], acc => acc
  | fuel + 1, c :: cs, acc =>
    let chunks := if chunkIsWS c && !acc.isEmpty then cs else c :: cs
    let bl := buildLine w chunks
    let acc2 := if bl.1.isEmpty then acc else acc ++ [bl.1.flatten]
    wrapChunksGo w fuel bl.2 acc2

/-- Fuel that lets `wrapChunksGo` consume every chunk. -/
def wrapFuel (chunks : List Str) : Nat :=
  sumLen chunks + chunks.length + 1

/-- Python `textwrap.wrap(text, width=w)` with all options at their
defaults (as called by `create_pdf`; the script only uses `w = 90`). -/
def wrap (text : Str) (w : Nat) : List Str :=
  let chunks := splitChunks (mungeWhitespace text)
  wrapChunksGo w (wrapFuel chunks) chunks []

/-! ### The slide data consumed by `create_pdf`

A slide is a JSON dictionary; `create_pdf` reads the keys `"title"` and
`"bullets"` with `dict.get` defaults, so each is optional. -/

/-- One slide dictionary: the `"title"` and `"bullets"` entries may each be
absent (`none`). -/
structure Slide where
  title : Option Str
  bullets : Option (List Str)
deriving DecidableEq, Repr

/-! ### The ReportLab canvas, modelled as a drawing-operation recorder

`create_pdf` only uses `setFont`, `setFillColor`, `drawString`,
`drawCentredString`, `showPage` and `save`; each drawing call is recorded as
an abstract operation.  ReportLab's float coordinates are idealised as exact
rationals (`A4 = (210*mm, 297*mm)`, `inch = 72`, `mm = 72/25.4`). -/

/-- One ReportLab point per unit; `inch = 72` points. -/
def inch : ℚ := 72

/-- `mm` in points. -/
def mm : ℚ := 72 / (254 / 10)

/-- A4 page width in points. -/
def A4w : ℚ := 210 * mm

/-- A4 page height in points. -/
def A4h : ℚ := 297 * mm

/-- A drawing operation issued to the ReportLab canvas. -/
inductive DrawOp where
  | setFont : String → ℚ → DrawOp
  | setFillColor : String → DrawOp
  | drawCentredString : ℚ → ℚ → Str → DrawOp
  | drawString : ℚ → ℚ → Str → DrawOp
deriving DecidableEq, Repr

/-- A finished page is the list of operations drawn on it. -/
abbrev Page := List DrawOp

/-- The canvas state: finished pages plus the operations of the page being
drawn. -/
structure Canvas where
  pages : List Page
  current : Page
deriving DecidableEq, Repr

/-- Record one drawing operation on the current page. -/
def Canvas.op (c : Canvas) (o : DrawOp) : Canvas :=
  ⟨c.pages, c.current ++ [o]⟩

/-- `canvas.showPage()`: close the current page. -/
def Canvas.showPage (c : Canvas) : Canvas :=
  ⟨c.pages ++ [c.current], []⟩

/-- `canvas.save()`: emit the document; ReportLab flushes a non-empty
current page first. -/
def Canvas.save (c : Canvas) : List Page :=
  if c.current.isEmpty then c.pages else c.pages ++ [c.current]

/-- `"Helvetica-Bold"`. -/
def helveticaBold : String := "Helvetica-Bold"

/-- `"Helvetica"`. -/
def helvetica : String := "Helvetica"

/-- `colors.darkblue`. -/
def darkblue : String := "darkblue"

/-- `colors.black`. -/
def black : String := "black"

/-- The default slide heading `"Untitled Slide"`. -/
def untitledSlide : Str := "Untitled Slide".data

/-- The title-page subtitle `"Generated Presentation"`. -/
def generatedPresentation : Str := "Generated Presentation".data

/-- The bullet marker `"• "` prepended to each bullet before wrapping
(the f-string at line 61 of the source). -/
def bulletMark : Str := '•' :: ' ' :: []

/-- The inner line loop of `create_pdf`:
`c.drawString(1*inch, y, line); y -= 14`. -/
def drawLine : Canvas × ℚ → Str → Canvas × ℚ
  | (c, y), line => (c.op (.drawString (1 * inch) y line), y - 14)

/-- The bullet loop body of `create_pdf`: wrap `"• " + bullet` at width 90,
draw each line, then `y -= 4`. -/
def drawBullet : Canvas × ℚ → Str → Canvas × ℚ
  | (c, y), b =>
    let p := (wrap (bulletMark ++ b) 90).foldl drawLine (c, y)
    (p.1, p.2 - 4)

/-- The slide loop body of `create_pdf` (lines 50–67 of the source). -/
def drawSlide (c : Canvas) (s : Slide) : Canvas :=
  let c := c.op (.setFont helveticaBold 18)
  let c := c.op (.setFillColor darkblue)
  let c := c.op (.drawString (1 * inch) (A4h - 12 / 10 * inch) (s.title.getD untitledSlide))
  let c := c.op (.setFont helvetica 12)
  let c := c.op (.setFillColor black)
  let p := (s.bullets.getD []).foldl drawBullet (c, A4h - 18 / 10 * inch)
  p.1.showPage

/-- `create_pdf(title, slides, pdf_path)` (lines 38–69 of the source): the
document written to `pdf_path`, as its list of pages. -/
def create_pdf (title : Str) (slides : List Slide) : List Page :=
  let c : Canvas := ⟨[], []⟩
  let c := c.op (.setFont helveticaBold 24)
  let c := c.op (.drawCentredString (A4w / 2) (A4h - 2 * inch) title)
  let c := c.op (.setFont helvetica 12)
  let c := c.op (.drawCentredString (A4w / 2) (A4h - 5 / 2 * inch) generatedPresentation)
  let c := c.showPage
  let c := slides.foldl drawSlide c
  c.save

/-! ### Closed forms for the pages drawn by `create_pdf` -/

/-- The operations drawn for a list of already-wrapped lines starting at
height `y`. -/
def lineOps : ℚ → List Str → Page
  | _, [] => []
  | y, l :: ls => .drawString (1 * inch) y l :: lineOps (y - 14) ls

/-- The operations drawn for a list of bullets starting at height `y`:
each bullet is wrapped at width 90 and drawn line by line. -/
def bulletOps : ℚ → List Str → Page
  | _, [] => []
  | y, b :: bs =>
    let w := wrap (bulletMark ++ b) 90
    lineOps y w ++ bulletOps (y - 14 * w.length - 4) bs

/-- The height of the pen after drawing a list of bullets from height `y`. -/
def finalY : ℚ → List Str → ℚ
  | y, [] => y
  | y, b :: bs => finalY (y - 14 * (wrap (bulletMark ++ b) 90).length - 4) bs

/-- The five heading operations of a slide page. -/
def slideHeader (s : Slide) : Page :=
  [.setFont helveticaBold 18, .setFillColor darkblue,
   .drawString (1 * inch) (A4h - 12 / 10 * inch) (s.title.getD untitledSlide),
   .setFont helvetica 12, .setFillColor black]

/-- The full page drawn for one slide: heading first, then the wrapped
bullet lines. -/
def slidePage (s : Slide) : Page :=
  slideHeader s ++ bulletOps (A4h - 18 / 10 * inch) (s.bullets.getD [])

/-- The title page. -/
def titlePage (t : Str) : Page :=
  [.setFont helveticaBold 24, .drawCentredString (A4w / 2) (A4h - 2 * inch) t,
   .setFont helvetica 12, .drawCentredString (A4w / 2) (A4h - 5 / 2 * inch) generatedPresentation]

/-! ### The OpenAI call (`generate_html_with_openai`)

The network is an oracle: a function from the two prompt strings to the
response object.  Only the response fields the script reads are modelled
(`output_text` — absent or a string — and the `output` item list). -/

/-- One item of `resp.output`; the script reads `out.type` and `out.text`
(with `getattr` default `""`). -/
structure OutItem where
  type : String
  text : Str
deriving DecidableEq, Repr

/-- The fields of the OpenAI response object read by the script. -/
structure ApiResp where
  output_text : Option Str
  output : List OutItem
deriving DecidableEq, Repr

/-- The system prompt (lines 84–96 of the source). -/
def system_prompt : Str :=
  ("You are an expert in HTML/CSS presentation design. Return a COMPLETE, self-contained HTML5 document " ++
   "that looks like a polished slide deck:\n" ++
   "- First slide: full-screen hero with large centered title, subtitle, and date.\n" ++
   "- Alternating background colors for slides.\n" ++
   "- Large bold headings (2.5rem+), system sans-serif font.\n" ++
   "- Grid layouts or cards for metrics.\n" ++
   "- Inline SVG icons where relevant.\n" ++
   "- Use CSS variables in :root for --accent, --accent2, --bg, --text.\n" ++
   "- Each slide prints as its own PDF page (use page-break-after: always; except last slide).\n" ++
   "- No external assets, fonts, or scripts.\n" ++
   "Return only the HTML.").data

/-- The user prompt built from the two text boxes (lines 98–104). -/
def user_prompt (fmt cont : Str) : Str :=
  "\nDesired presentation format:\n".data ++ fmt ++
  "\n\nContent to include:\n".data ++ cont ++ "\n".data

/-- The placeholder document returned when no client is configured
(line 82 of the source). -/
def missingKeyHtml : Str :=
  ("<!doctype html><html><head><meta charset=\x27utf-8\x27><title>Missing API Key</title>" ++
   "</head><body><h1>Missing OPENAI_API_KEY</h1></body></html>").data

/-- `"\n".join(parts)` over the `output_text`-typed items of `resp.output`,
stripped — the fallback extraction of lines 120–125.  (The surrounding
`try/except` cannot fire in this model, where `resp.output` is always a
well-formed list.) -/
def fallbackText (r : ApiResp) : Str :=
  pyStrip (List.intercalate "\n".data
    ((r.output.filter (fun o => o.type = "output_text")).map OutItem.text))

/-- Text extraction from the response (lines 116–125): use
`resp.output_text` when present and truthy (non-empty), stripped; otherwise
join the `output_text` items. -/
def extractText (r : ApiResp) : Str :=
  match r.output_text with
  | some t => if t.isEmpty then fallbackText r else pyStrip t
  | none => fallbackText r

/-- `generate_html_with_openai(format_instructions, content_instructions)`
(lines 80–127).  The client is either absent (`None`) or an oracle mapping
the system and user prompts to the response.  The first component counts the
calls made to `client.responses.create`. -/
def generate_html_with_openai (client : Option (Str → Str → ApiResp))
    (fmt cont : Str) : Nat × Str :=
  match client with
  | none => (0, missingKeyHtml)
  | some oracle =>
    let resp := oracle system_prompt (user_prompt fmt cont)
    (1, extractText resp)

/-! ### The export handlers

Each export button handler is a `try/except/finally` block: create a named
temporary file, let the PDF library write it, read the bytes back and offer
them for download; on an exception show an error; in all cases the `finally`
block removes the temporary file when it exists.  The fallible library/file
step is an oracle returning either the PDF bytes or the exception message.
(A failure of `NamedTemporaryFile` itself is not modelled: the claims only
concern the file once it exists.) -/

/-- A call into a PDF-producing library, with the data handed to it. -/
inductive LibCall where
  | weasy : Str → LibCall
  | reportlab : Str → List Slide → LibCall
deriving DecidableEq, Repr

/-- The observable effects of one export-button handler. -/
structure PdfExport where
  libCalls : List LibCall
  successes : List String
  errors : List String
  downloads : List (Str × Str)
  tmpCreated : Bool
  tmpExistsAfter : Bool
deriving DecidableEq, Repr

/-- A handler that did nothing (button not clicked / section not shown). -/
def noExport : PdfExport := ⟨[], [], [], [], false, false⟩

/-- The error message of the `except` branches. -/
def failMsg (e : String) : String := "Failed to render PDF: " ++ e

/-- The WeasyPrint export handler (lines 178–202): hand `html_state` to
`HTML(string=html).write_pdf(...)`; on success offer the bytes under
`file_name`; on an exception show the error; remove the temporary file. -/
def exportWeasyRun (html fileName : Str) (call : Str → Except String Str) : PdfExport :=
  match call html with
  | .ok bytes => ⟨[.weasy html], ["PDF generated."], [], [(bytes, fileName)], true, false⟩
  | .error e => ⟨[.weasy html], [], [failMsg e], [], true, false⟩

/-- `".pdf"`. -/
def dotPdf : Str := ".pdf".data

/-- Python `s.replace(old, new)`: replace every (non-overlapping)
occurrence, scanning left to right.  Fuelled by the length of `s`, which
suffices whenever `old` is non-empty. -/
def pyReplaceGo (old new : Str) : Nat → Str → Str
  | 0, s => s
  | _ + 1, [] => []
  | fuel + 1, c :: cs =>
    if !old.isEmpty && old.isPrefixOf (c :: cs) then
      new ++ pyReplaceGo old new fuel ((c :: cs).drop old.length)
    else
      c :: pyReplaceGo old new fuel cs

/-- Python `s.replace(old, new)`. -/
def pyReplace (s old new : Str) : Str :=
  pyReplaceGo old new s.length s

/-- The ReportLab export handler (lines 220–246): with no slide data, show
an error and make no library call; otherwise hand
`file_name.replace(".pdf", "")` and the slide list to `create_pdf`, whose
document the write oracle either persists as bytes or fails on. -/
def exportReportRun (fileName : Str) (slides : List Slide)
    (write : List Page → Except String Str) : PdfExport :=
  if slides.isEmpty then
    ⟨[], [], ["Please provide slide data in JSON format for ReportLab PDF export."], [], false, false⟩
  else
    let title := pyReplace fileName dotPdf []
    match write (create_pdf title slides) with
    | .ok bytes => ⟨[.reportlab title slides], ["PDF generated."], [], [(bytes, fileName)], true, false⟩
    | .error e => ⟨[.reportlab title slides], [], [failMsg e], [], true, false⟩

/-! ### One Streamlit rerun of the script -/

/-- `st.session_state`: a persistent map from keys to string values. -/
abbrev SState := String → Option Str

/-- The session key `"generated_html"` — the only key the script writes. -/
def genKey : String := "generated_html"

/-- Assignment `st.session_state[k] = v`. -/
def setKey (s : SState) (k : String) (v : Str) : SState :=
  fun k2 => if k2 = k then some v else s k2

/-- Everything one rerun of the script reads from outside: the configured
key, the widget contents, which buttons fired this rerun, and oracles for
the network, the JSON parser and the two PDF backends. -/
structure Env where
  apiKey : Option Str
  format_instructions : Str
  content_instructions : Str
  generate_btn : Bool
  file_name : Str
  weasy_btn : Bool
  slide_data_raw : Str
  jsonParse : Except String (List Slide)
  report_btn : Bool
  respOracle : Str → Str → ApiResp
  weasyCall : Str → Except String Str
  reportWrite : List Page → Except String Str

/-- Python truthiness of the optional key string (`if not OPENAI_API_KEY`):
present and non-empty. -/
def truthy : Option Str → Bool
  | none => false
  | some s => !s.isEmpty

/-- Line 30: `client = OpenAI(...) if OPENAI_API_KEY else None`. -/
def mkClient (e : Env) : Option (Str → Str → ApiResp) :=
  if truthy e.apiKey then some e.respOracle else none

/-- The warning of lines 28–29. -/
def apiKeyWarning : String :=
  "Set OPENAI_API_KEY in Streamlit secrets or as an environment variable to enable HTML generation."

/-- The error of line 156. -/
def missingKeyError : String := "Missing OPENAI_API_KEY environment variable."

/-- The info message of line 249. -/
def infoMsg : String := "Generate HTML to see a preview and export to PDF."

/-- The error prefix of line 218. -/
def jsonMsg (e : String) : String := "Invalid JSON for slides: " ++ e

/-- Lines 152–160: read the session HTML, then handle a click of the
generate button.  Returns (API calls made, `html_state`, new session state,
errors shown). -/
def genStep (e : Env) (s : SState) : Nat × Str × SState × List String :=
  let html0 := (s genKey).getD []
  if e.generate_btn then
    if truthy e.apiKey then
      let r := generate_html_with_openai (mkClient e) e.format_instructions e.content_instructions
      (r.1, r.2, setKey s genKey r.2, [])
    else
      (0, html0, s, [missingKeyError])
  else
    (0, html0, s, [])

/-- The value of `html_state` when the preview/export section is reached:
the freshly generated text after a successful generate click, otherwise the
session-held string (empty when never generated). -/
def htmlShown (e : Env) (s : SState) : Str :=
  if e.generate_btn = true ∧ truthy e.apiKey = true then
    (generate_html_with_openai (mkClient e) e.format_instructions e.content_instructions).2
  else
    (s genKey).getD []

/-- Lines 213–218: `slides_for_pdf`, as parsed on this rerun — empty when
the box is blank or the JSON fails to parse. -/
def parsedSlides (e : Env) : List Slide :=
  if (pyStrip e.slide_data_raw).isEmpty then []
  else
    match e.jsonParse with
    | .ok l => l
    | .error _ => []

/-- The parse error shown by line 218, when any. -/
def jsonErrors (e : Env) : List String :=
  if (pyStrip e.slide_data_raw).isEmpty then []
  else
    match e.jsonParse with
    | .ok _ => []
    | .error m => [jsonMsg m]

/-- The observable outcome of one rerun. -/
structure RunResult where
  state : SState
  warnings : List String
  errors : List String
  infos : List String
  apiCalls : Nat
  weasyExport : PdfExport
  reportExport : PdfExport

/-- All PDF-library calls a rerun made. -/
def RunResult.libCalls (r : RunResult) : List LibCall :=
  r.weasyExport.libCalls ++ r.reportExport.libCalls

/-- All downloads a rerun offered. -/
def RunResult.downloads (r : RunResult) : List (Str × Str) :=
  r.weasyExport.downloads ++ r.reportExport.downloads

/-- One top-to-bottom rerun of the script (lines 27–249): the top-of-file
key warning, the generate handling, then — only when `html_state` is truthy
— the preview with the two export handlers; otherwise the info prompt. -/
def run (e : Env) (s : SState) : RunResult :=
  let warnings := if truthy e.apiKey then [] else [apiKeyWarning]
  let g := genStep e s
  let html_state := g.2.1
  if html_state.isEmpty then
    ⟨g.2.2.1, warnings, g.2.2.2, [infoMsg], g.1, noExport, noExport⟩
  else
    let weasyE := if e.weasy_btn then exportWeasyRun html_state e.file_name e.weasyCall else noExport
    let reportE := if e.report_btn then exportReportRun e.file_name (parsedSlides e) e.reportWrite else noExport
    ⟨g.2.2.1, warnings, g.2.2.2 ++ weasyE.errors ++ jsonErrors e ++ reportE.errors,
     [], g.1, weasyE, reportE⟩

/-! ### Concrete fixtures used to instantiate the theorems -/

/-- An empty session (nothing generated yet). -/
def s0 : SState := fun _ => none

/-- A session already holding the generated HTML `"H"`. -/
def sH : SState := fun k => if k = genKey then some ('H' :: []) else none

/-- A network oracle whose response text is `" A "` (whitespace around). -/
def respA : Str → Str → ApiResp := fun _ _ => ⟨some (' ' :: 'A' :: ' ' :: []), []⟩

/-- A WeasyPrint oracle that always succeeds. -/
def weasyOk : Str → Except String Str := fun _ => .ok "WPDF".data

/-- A WeasyPrint oracle that always raises. -/
def weasyBad : Str → Except String Str := fun _ => .error "boom"

/-- A ReportLab write oracle that always succeeds. -/
def reportOk : List Page → Except String Str := fun _ => .ok "RPDF".data

/-- A ReportLab write oracle that always raises. -/
def reportBad : List Page → Except String Str := fun _ => .error "boom"

/-- A one-slide list for the ReportLab export. -/
def slA : List Slide := [⟨some ('S' :: []), some [('b' :: [])]⟩]

/-- A base environment: key configured, no button clicked, file name
`"deck.pdf"`, empty slide box. -/
def baseEnv : Env :=
  ⟨some "k".data, [], [], false, "deck.pdf".data, false, [], .ok [], false,
   respA, weasyOk, reportOk⟩

/-- `baseEnv` with the generate button clicked. -/
def eGen : Env := { baseEnv with generate_btn := true }

/-- `baseEnv` with no API key configured and the generate button clicked. -/
def eNoKey : Env := { baseEnv with apiKey := none, generate_btn := true }

/-- `baseEnv` with the ReportLab button clicked and slide JSON provided. -/
def eRep : Env := { baseEnv with report_btn := true, slide_data_raw := "X".data, jsonParse := .ok slA }

/-- `baseEnv` with the ReportLab button clicked and a blank slide box. -/
def eRepBlank : Env := { baseEnv with report_btn := true }

/-- `baseEnv` with the WeasyPrint button clicked. -/
def eWeasy : Env := { baseEnv with weasy_btn := true }

/-! ### Structure of the document drawn by `create_pdf` -/

lemma foldl_drawLine (lines : List Str) : ∀ (c : Canvas) (y : ℚ),
    lines.foldl drawLine (c, y) =
      (⟨c.pages, c.current ++ lineOps y lines⟩, y - 14 * lines.length) := by
  induction lines with
  | nil => intro c y; simp [lineOps]
  | cons l ls ih =>
    intro c y
    simp only [List.foldl_cons, drawLine]
    rw [ih]
    simp only [Canvas.op, lineOps, List.append_assoc, List.singleton_append,
      List.length_cons]
    congr 1
    push_cast
    ring

lemma foldl_drawBullet (bs : List Str) : ∀ (c : Canvas) (y : ℚ),
    bs.foldl drawBullet (c, y) =
      (⟨c.pages, c.current ++ bulletOps y bs⟩, finalY y bs) := by
  induction bs with
  | nil => intro c y; simp [bulletOps, finalY]
  | cons b bs ih =>
    intro c y
    simp only [List.foldl_cons, drawBullet, foldl_drawLine]
    rw [ih]
    simp [bulletOps, finalY, List.append_assoc, sub_sub]

lemma drawSlide_eq (c : Canvas) (s : Slide) :
    drawSlide c s = ⟨c.pages ++ [c.current ++ slidePage s], []⟩ := by
  simp only [drawSlide, foldl_drawBullet]
  simp [Canvas.op, Canvas.showPage, slidePage, slideHeader, List.append_assoc]

lemma foldl_drawSlide (ss : List Slide) : ∀ (pages : List Page),
    ss.foldl drawSlide ⟨pages, []⟩ = ⟨pages ++ ss.map slidePage, []⟩ := by
  induction ss with
  | nil => intro pages; simp
  | cons s ss ih =>
    intro pages
    simp only [List.foldl_cons, drawSlide_eq, List.nil_append, List.map_cons]
    rw [ih]
    simp

/-- Closed form of `create_pdf`: the title page followed by one page per
slide, in order. -/
lemma create_pdf_eq (t : Str) (ss : List Slide) :
    create_pdf t ss = titlePage t :: ss.map slidePage := by
  simp only [create_pdf, Canvas.op, Canvas.showPage, List.nil_append, List.append_assoc,
    List.singleton_append, foldl_drawSlide]
  simp [Canvas.save, titlePage]

/-! ### Every line produced by `wrap` fits in the requested width -/

lemma sumLen_append (a b : List Str) : sumLen (a ++ b) = sumLen a + sumLen b := by
  induction a with
  | nil => simp [sumLen]
  | cons c cs ih => simp [sumLen, ih]; omega

lemma length_flatten (l : List Str) : l.flatten.length = sumLen l := by
  induction l with
  | nil => rfl
  | cons c cs ih => simp [sumLen, ih]

lemma sumLen_dropLast_le (l : List Str) : sumLen l.dropLast ≤ sumLen l := by
  induction l with
  | nil => simp
  | cons c cs ih =>
    cases cs with
    | nil => simp [sumLen]
    | cons d ds =>
      simp only [List.dropLast_cons₂, sumLen] at *
      omega

lemma greedyTake_len (w : Nat) (l : List Str) : ∀ k,
    (greedyTake w k l).2.1 = k + sumLen (greedyTake w k l).1 := by
  induction l with
  | nil => intro k; simp [greedyTake, sumLen]
  | cons ch rest ih =>
    intro k
    simp only [greedyTake]
    split
    · simp only [sumLen]
      rw [ih]
      omega
    · simp [sumLen]

lemma greedyTake_le (w : Nat) (l : List Str) : ∀ k, k ≤ w →
    (greedyTake w k l).2.1 ≤ w := by
  induction l with
  | nil => intro k hk; simpa [greedyTake] using hk
  | cons ch rest ih =>
    intro k hk
    simp only [greedyTake]
    split
    · exact ih _ (by omega)
    · simpa using hk

lemma rfindAux_lt (c : Char) (l : Str) : ∀ i, rfindAux c l = some i → i < l.length := by
  induction l with
  | nil => intro i h; simp [rfindAux] at h
  | cons x xs ih =>
    intro i h
    simp only [List.length_cons]
    cases hr : rfindAux c xs with
    | some j =>
      simp only [rfindAux, hr] at h
      have hj := ih j hr
      have hji : j + 1 = i := by simpa using h
      omega
    | none =>
      simp only [rfindAux, hr] at h
      by_cases hx : x = c
      · rw [if_pos hx] at h
        have h0 : (0 : Nat) = i := Option.some.inj h
        omega
      · rw [if_neg hx] at h
        exact absurd h (by simp)

lemma pyRfind_lt (c : Char) (s : Str) (stop i : Nat) :
    pyRfind c s stop = some i → i < stop := by
  intro h
  have h1 := rfindAux_lt c (s.take stop) i h
  have h2 : (s.take stop).length ≤ stop := by
    simp [List.length_take]
  omega

lemma longWordBreak_le (sl : Nat) (ch : Str) : longWordBreak sl ch ≤ sl := by
  unfold longWordBreak
  split
  · cases hpf : pyRfind '-' ch sl with
    | some h =>
      simp only [hpf]
      split
      · have := pyRfind_lt '-' ch sl h hpf
        omega
      · exact le_refl sl
    | none => simp [hpf]
  · exact le_refl sl

lemma handleLongWord_sumLen (w k : Nat) (chunks curline : List Str)
    (hw : 1 ≤ w) :
    sumLen (handleLongWord w k chunks curline).1 ≤ sumLen curline + (w - k) := by
  cases chunks with
  | nil => simp [handleLongWord]
  | cons ch rest =>
    simp only [handleLongWord]
    have hsp : (if w < 1 then 1 else w - k) = w - k := by
      have : ¬ w < 1 := by omega
      simp [this]
    rw [hsp, sumLen_append]
    have h1 := longWordBreak_le (w - k) ch
    have h2 : (ch.take (longWordBreak (w - k) ch)).length ≤ longWordBreak (w - k) ch := by
      simp [List.length_take]
    simp only [sumLen]
    omega

lemma buildLine_sumLen (w : Nat) (chunks : List Str) (hw : 1 ≤ w) :
    sumLen (buildLine w chunks).1 ≤ w := by
  simp only [buildLine]
  have hlen := greedyTake_len w chunks 0
  have hle := greedyTake_le w chunks 0 (by omega)
  set g := greedyTake w 0 chunks with hg
  have step1 : ∀ hl : List Str × List Str, sumLen hl.1 ≤ w →
      sumLen (match hl.1.getLast? with
        | some last => if chunkIsWS last then hl.1.dropLast else hl.1
        | none => hl.1) ≤ w := by
    intro hl hle2
    split
    · split
      · exact le_trans (sumLen_dropLast_le _) hle2
      · exact hle2
    · exact hle2
  apply step1
  split
  · dsimp only
    omega
  · split
    · refine le_trans (handleLongWord_sumLen w g.2.1 _ g.1 hw) ?_
      omega
    · dsimp only
      omega

lemma mem_newAcc_le {w : Nat} {acc chs : List Str} {l2 : Str} (hw : 1 ≤ w)
    (hacc : ∀ l ∈ acc, l.length ≤ w)
    (h : l2 ∈ if (buildLine w chs).1.isEmpty then acc else acc ++ [(buildLine w chs).1.flatten]) :
    l2.length ≤ w := by
  split at h
  · exact hacc l2 h
  · rcases List.mem_append.mp h with h | h
    · exact hacc l2 h
    · rw [List.mem_singleton.mp h, length_flatten]
      exact buildLine_sumLen w _ hw

lemma wrapChunksGo_le (w : Nat) (hw : 1 ≤ w) :
    ∀ fuel chunks acc, (∀ l ∈ acc, l.length ≤ w) →
      ∀ l ∈ wrapChunksGo w fuel chunks acc, l.length ≤ w := by
  intro fuel
  induction fuel with
  | zero =>
    intro chunks acc hacc l hl
    exact hacc l hl
  | succ fuel ih =>
    intro chunks acc hacc l hl
    cases chunks with
    | nil => exact hacc l hl
    | cons c cs =>
      simp only [wrapChunksGo] at hl
      exact ih _ _ (fun l2 hl2 => mem_newAcc_le hw hacc hl2) l hl

/-- Every line returned by `wrap` is at most `w` characters long
(for positive `w`). -/
lemma wrap_lines_le (text : Str) (w : Nat) (hw : 1 ≤ w) :
    ∀ l ∈ wrap text w, l.length ≤ w := by
  intro l hl
  exact wrapChunksGo_le w hw _ _ [] (by simp) l hl

lemma mem_lineOps {x y2 : ℚ} {s : Str} : ∀ {y : ℚ} {lines : List Str},
    DrawOp.drawString x y2 s ∈ lineOps y lines → s ∈ lines := by
  intro y lines
  induction lines generalizing y with
  | nil => simp [lineOps]
  | cons l ls ih =>
    intro h
    simp only [lineOps, List.mem_cons] at h
    rcases h with h | h
    · obtain ⟨-, -, rfl⟩ := (DrawOp.drawString.injEq _ _ _ _ _ _).mp h
      exact List.mem_cons_self _ _
    · exact List.mem_cons_of_mem _ (ih h)

lemma getD_append_len {α : Type} (l : List α) (a : α) (r : List α) (d : α) :
    (l ++ a :: r).getD l.length d = a := by
  induction l with
  | nil => rfl
  | cons x xs ih => simpa using ih

/-! ### Shape of one rerun -/

lemma genStep_html (e : Env) (s : SState) : (genStep e s).2.1 = htmlShown e s := by
  simp only [genStep, htmlShown]
  by_cases hb : e.generate_btn = true
  · by_cases hk : truthy e.apiKey = true
    · simp [hb, hk]
    · simp [hb, hk]
  · simp [hb]

lemma genStep_calls (e : Env) (s : SState) :
    (genStep e s).1 = if e.generate_btn = true ∧ truthy e.apiKey = true then 1 else 0 := by
  simp only [genStep]
  by_cases hb : e.generate_btn = true
  · by_cases hk : truthy e.apiKey = true
    · simp [hb, hk, generate_html_with_openai, mkClient]
    · simp [hb, hk]
  · simp [hb]

lemma genStep_state (e : Env) (s : SState) :
    (genStep e s).2.2.1 =
      if e.generate_btn = true ∧ truthy e.apiKey = true then
        setKey s genKey (htmlShown e s)
      else s := by
  simp only [genStep, htmlShown]
  by_cases hb : e.generate_btn = true
  · by_cases hk : truthy e.apiKey = true
    · simp [hb, hk]
    · simp [hb, hk]
  · simp [hb]

lemma genStep_errors (e : Env) (s : SState) :
    (genStep e s).2.2.2 =
      if e.generate_btn = true ∧ truthy e.apiKey = false then [missingKeyError] else [] := by
  simp only [genStep]
  by_cases hb : e.generate_btn = true
  · by_cases hk : truthy e.apiKey = true
    · simp [hb, hk]
    · simp [hb, hk, Bool.not_eq_true] at *
  · simp [hb]

lemma run_eq (e : Env) (s : SState) :
    run e s =
      if (htmlShown e s).isEmpty then
        ⟨(genStep e s).2.2.1, (if truthy e.apiKey then [] else [apiKeyWarning]),
         (genStep e s).2.2.2, [infoMsg], (genStep e s).1, noExport, noExport⟩
      else
        ⟨(genStep e s).2.2.1, (if truthy e.apiKey then [] else [apiKeyWarning]),
         (genStep e s).2.2.2 ++
           (if e.weasy_btn then exportWeasyRun (htmlShown e s) e.file_name e.weasyCall
            else noExport).errors ++
           jsonErrors e ++
           (if e.report_btn then exportReportRun e.file_name (parsedSlides e) e.reportWrite
            else noExport).errors,
         [], (genStep e s).1,
         (if e.weasy_btn then exportWeasyRun (htmlShown e s) e.file_name e.weasyCall
          else noExport),
         (if e.report_btn then exportReportRun e.file_name (parsedSlides e) e.reportWrite
          else noExport)⟩ := by
  simp only [run, genStep_html]

/-! ### The claims -/

/-- C1: for every title and every slide list, `create_pdf` produces the
title page first, followed by exactly one page per slide in input order —
`1 + length slides` pages in total — where each slide page consists of the
slide's title heading (the five `slideHeader` operations) followed by its
bullets word-wrapped into lines (`bulletOps`, which draws the width-90
wrapping of each bullet). -/
theorem claim_C1_create_pdf_layout (t : Str) (slides : List Slide) :
    create_pdf t slides = titlePage t :: slides.map slidePage ∧
    (create_pdf t slides).length = 1 + slides.length := by
  refine ⟨create_pdf_eq t slides, ?_⟩
  rw [create_pdf_eq]
  simp [Nat.add_comm]

/-- C9: `create_pdf` is total over slide dictionaries with missing keys —
a slide without a `"title"` key gets the heading `"Untitled Slide"`, and a
slide without a `"bullets"` key gets no bullet lines, its page being
exactly the five heading operations.  (Both keys are read with `dict.get`
defaults, so no lookup can fail.) -/
theorem claim_C9_create_pdf_defaults (t : Str) (pre : List Slide) (s : Slide)
    (post : List Slide) :
    (s.title = none →
      (create_pdf t (pre ++ s :: post)).getD (pre.length + 1) [] =
        DrawOp.setFont helveticaBold 18 :: DrawOp.setFillColor darkblue ::
        DrawOp.drawString (1 * inch) (A4h - 12 / 10 * inch) untitledSlide ::
        DrawOp.setFont helvetica 12 :: DrawOp.setFillColor black ::
        bulletOps (A4h - 18 / 10 * inch) (s.bullets.getD [])) ∧
    (s.bullets = none →
      (create_pdf t (pre ++ s :: post)).getD (pre.length + 1) [] = slideHeader s) := by
  have hpage : (create_pdf t (pre ++ s :: post)).getD (pre.length + 1) [] = slidePage s := by
    rw [create_pdf_eq, List.map_append, List.map_cons]
    have h := getD_append_len (pre.map slidePage) (slidePage s) (post.map slidePage) []
    rw [List.length_map] at h
    simpa [List.getD_cons_succ] using h
  constructor
  · intro ht
    rw [hpage]
    simp [slidePage, slideHeader, ht]
  · intro hb
    rw [hpage]
    simp [slidePage, slideHeader, hb, bulletOps]

/-- Witness for C9: a slide with both keys missing yields exactly the
heading operations, titled `"Untitled Slide"`. -/
theorem claim_C9_witness :
    (create_pdf "T".data [⟨none, none⟩]).getD 1 [] = slideHeader ⟨none, none⟩ :=
  (claim_C9_create_pdf_defaults "T".data [] ⟨none, none⟩ []).2 rfl

/-- C10: every bullet text line drawn by `create_pdf` (every `drawString`
issued by the bullet loop — `bulletOps` — including the `"• "` prefix that
is part of the wrapped text of the first line of each bullet) is at most 90
characters long. -/
theorem claim_C10_bullet_lines_le_90 (bullets : List Str) (y x y2 : ℚ) (s : Str)
    (h : DrawOp.drawString x y2 s ∈ bulletOps y bullets) : s.length ≤ 90 := by
  induction bullets generalizing y with
  | nil => simp [bulletOps] at h
  | cons b bs ih =>
    simp only [bulletOps] at h
    rcases List.mem_append.mp h with h | h
    · exact wrap_lines_le _ 90 (by omega) s (mem_lineOps h)
    · exact ih _ h

/-- Witness for C10: the single wrapped line drawn for the bullet `"hi"`. -/
theorem claim_C10_witness :
    DrawOp.drawString (1 * inch) (A4h - 18 / 10 * inch) ('•' :: ' ' :: 'h' :: 'i' :: []) ∈
      bulletOps (A4h - 18 / 10 * inch) [('h' :: 'i' :: [])] ∧
    ('•' :: ' ' :: 'h' :: 'i' :: [] : Str).length ≤ 90 := by
  have hw : wrap (bulletMark ++ ('h' :: 'i' :: [])) 90 = [('•' :: ' ' :: 'h' :: 'i' :: [])] := by
    decide
  have hmem : DrawOp.drawString (1 * inch) (A4h - 18 / 10 * inch)
      ('•' :: ' ' :: 'h' :: 'i' :: []) ∈
      bulletOps (A4h - 18 / 10 * inch) [('h' :: 'i' :: [])] := by
    simp only [bulletOps]
    rw [hw]
    simp only [lineOps, List.append_nil]
    exact List.mem_singleton.mpr rfl
  exact ⟨hmem,
    claim_C10_bullet_lines_le_90 [('h' :: 'i' :: [])] (A4h - 18 / 10 * inch)
      (1 * inch) (A4h - 18 / 10 * inch) _ hmem⟩

/-- C5: the only persistent application state is the single
`"generated_html"` session variable — no rerun changes any other session
key, and only a generate click with a configured key changes that one
(every other rerun leaves the whole session state untouched). -/
theorem claim_C5_session_frame (e : Env) (s : SState) :
    (∀ k, k ≠ genKey → (run e s).state k = s k) ∧
    (¬(e.generate_btn = true ∧ truthy e.apiKey = true) → (run e s).state = s) := by
  have hst : (run e s).state = (genStep e s).2.2.1 := by
    rw [run_eq]
    split <;> rfl
  constructor
  · intro k hk
    rw [hst, genStep_state]
    split
    · simp [setKey, hk]
    · rfl
  · intro hng
    rw [hst, genStep_state]
    simp [hng]

/-- Witness for C5: with no button clicked, a key different from
`"generated_html"` is unchanged, and in fact the whole session is. -/
theorem claim_C5_witness :
    (run baseEnv s0).state "other" = s0 "other" ∧ (run baseEnv s0).state = s0 :=
  ⟨(claim_C5_session_frame baseEnv s0).1 "other" (by decide),
   (claim_C5_session_frame baseEnv s0).2 (by decide)⟩

/-- C6: the export actions are reachable only when a previously generated
HTML string exists: when the shown HTML is empty the rerun shows only the
informational prompt, performs no export (both handlers stay at
`noExport`), calls no PDF library and offers no download; conversely any
rerun that made a library call had non-empty HTML. -/
theorem claim_C6_export_guard (e : Env) (s : SState) :
    ((htmlShown e s).isEmpty = true →
      (run e s).infos = [infoMsg] ∧ (run e s).weasyExport = noExport ∧
      (run e s).reportExport = noExport ∧ (run e s).libCalls = [] ∧
      (run e s).downloads = []) ∧
    ((run e s).libCalls ≠ [] → (htmlShown e s).isEmpty = false) := by
  constructor
  · intro hh
    rw [run_eq]
    simp [hh, RunResult.libCalls, RunResult.downloads, noExport]
  · intro hl
    by_cases hh : (htmlShown e s).isEmpty = true
    · exfalso
      apply hl
      rw [run_eq]
      simp [hh, RunResult.libCalls, noExport]
    · simpa using hh

/-- Witness for C6: with an empty session and no generation, the rerun
shows the info prompt and makes no library call. -/
theorem claim_C6_witness :
    (run baseEnv s0).infos = [infoMsg] ∧ (run baseEnv s0).libCalls = [] :=
  ⟨((claim_C6_export_guard baseEnv s0).1 (by decide)).1,
   ((claim_C6_export_guard baseEnv s0).1 (by decide)).2.2.2.1⟩

/-- C8: with no truthy API key, a generate click shows the missing-key
error, makes no API call and leaves the entire session state unchanged;
and `generate_html_with_openai` called without a client returns the fixed
placeholder document (and makes no API call). -/
theorem claim_C8_missing_key (e : Env) (s : SState) (fmt cont : Str) :
    (e.generate_btn = true → truthy e.apiKey = false →
      missingKeyError ∈ (run e s).errors ∧ (run e s).apiCalls = 0 ∧
      (run e s).state = s) ∧
    generate_html_with_openai none fmt cont = (0, missingKeyHtml) := by
  constructor
  · intro hb hk
    have herr : (genStep e s).2.2.2 = [missingKeyError] := by
      rw [genStep_errors]
      simp [hb, hk]
    have hcalls : (genStep e s).1 = 0 := by
      rw [genStep_calls]
      simp [hk]
    have hstate : (genStep e s).2.2.1 = s := by
      rw [genStep_state]
      simp [hk]
    rw [run_eq]
    split
    · simp [herr, hcalls, hstate]
    · simp [herr, hcalls, hstate]
  · rfl

/-- Witness for C8: a generate click with no key configured. -/
theorem claim_C8_witness :
    missingKeyError ∈ (run eNoKey s0).errors ∧ (run eNoKey s0).apiCalls = 0 ∧
    generate_html_with_openai none [] [] = (0, missingKeyHtml) :=
  ⟨((claim_C8_missing_key eNoKey s0 [] []).1 rfl rfl).1,
   ((claim_C8_missing_key eNoKey s0 [] []).1 rfl rfl).2.1,
   (claim_C8_missing_key eNoKey s0 [] []).2⟩

/-- C2 counterexample: a generate click whose response text is `" A "`
makes one API call but stores `"A"` — the text with surrounding whitespace
stripped — so the returned text is not stored verbatim. -/
theorem claim_C2_counterexample :
    (run eGen s0).apiCalls = 1 ∧
    (eGen.respOracle system_prompt
        (user_prompt eGen.format_instructions eGen.content_instructions)).output_text =
      some (' ' :: 'A' :: ' ' :: []) ∧
    (run eGen s0).state genKey = some ('A' :: []) ∧
    (run eGen s0).state genKey ≠ some (' ' :: 'A' :: ' ' :: []) := by
  refine ⟨?_, rfl, ?_, ?_⟩ <;> decide

/-- C2 (amended): a generate click with a configured key makes exactly one
API call and stores the extracted response text stripped of leading and
trailing whitespace (in particular, a present non-empty `output_text` is
stored as its `strip()`). -/
theorem claim_C2_one_call_stores_stripped (e : Env) (s : SState)
    (hb : e.generate_btn = true) (hk : truthy e.apiKey = true) :
    (run e s).apiCalls = 1 ∧
    (run e s).state genKey =
      some (extractText (e.respOracle system_prompt
        (user_prompt e.format_instructions e.content_instructions))) ∧
    (∀ t, (e.respOracle system_prompt
          (user_prompt e.format_instructions e.content_instructions)).output_text = some t →
      t.isEmpty = false → (run e s).state genKey = some (pyStrip t)) := by
  have hcalls : (run e s).apiCalls = 1 := by
    have h1 : (run e s).apiCalls = (genStep e s).1 := by
      rw [run_eq]
      split <;> rfl
    rw [h1, genStep_calls]
    simp [hb, hk]
  have hstore : (run e s).state genKey =
      some (extractText (e.respOracle system_prompt
        (user_prompt e.format_instructions e.content_instructions))) := by
    have h1 : (run e s).state = (genStep e s).2.2.1 := by
      rw [run_eq]
      split <;> rfl
    rw [h1, genStep_state]
    simp [hb, hk, setKey, htmlShown, generate_html_with_openai, mkClient]
  refine ⟨hcalls, hstore, ?_⟩
  intro t ht hne
  rw [hstore]
  simp [extractText, ht, hne]

/-- Witness for C2 (amended) at the concrete generate click. -/
theorem claim_C2_witness :
    (run eGen s0).apiCalls = 1 ∧
    (run eGen s0).state genKey =
      some (extractText (eGen.respOracle system_prompt
        (user_prompt eGen.format_instructions eGen.content_instructions))) :=
  ⟨(claim_C2_one_call_stores_stripped eGen s0 rfl rfl).1,
   (claim_C2_one_call_stores_stripped eGen s0 rfl rfl).2.1⟩

/-- C3 counterexample: a ReportLab export click (with HTML `"H"` shown)
makes its one library call with the JSON slide data; the previously
generated text is handed to no PDF library. -/
theorem claim_C3_counterexample :
    htmlShown eRep sH = ('H' :: []) ∧
    (run eRep sH).libCalls =
      [LibCall.reportlab ('d' :: 'e' :: 'c' :: 'k' :: []) slA] ∧
    LibCall.weasy ('H' :: []) ∉ (run eRep sH).libCalls := by
  refine ⟨?_, ?_, ?_⟩ <;> decide

/-- C3 (amended): a WeasyPrint export click hands the generated HTML to
exactly one library call and on success offers the bytes under the chosen
file name; a ReportLab export click with non-empty parsed slide data hands
the slide list and the file-name-derived title — not the generated text —
to exactly one library call, with the same success behaviour; and `run`
wires the buttons to exactly these handlers whenever HTML is shown. -/
theorem claim_C3_export_calls (html fn b : Str) (call : Str → Except String Str)
    (slides : List Slide) (write : List Page → Except String Str)
    (e : Env) (s : SState) :
    ((exportWeasyRun html fn call).libCalls = [.weasy html] ∧
      (call html = .ok b → (exportWeasyRun html fn call).downloads = [(b, fn)])) ∧
    (slides ≠ [] →
      (exportReportRun fn slides write).libCalls =
        [.reportlab (pyReplace fn dotPdf []) slides] ∧
      (write (create_pdf (pyReplace fn dotPdf []) slides) = .ok b →
        (exportReportRun fn slides write).downloads = [(b, fn)])) ∧
    (e.weasy_btn = true → (htmlShown e s).isEmpty = false →
      (run e s).weasyExport = exportWeasyRun (htmlShown e s) e.file_name e.weasyCall) ∧
    (e.report_btn = true → (htmlShown e s).isEmpty = false →
      (run e s).reportExport = exportReportRun e.file_name (parsedSlides e) e.reportWrite) := by
  refine ⟨⟨?_, ?_⟩, ?_, ?_, ?_⟩
  · cases h : call html <;> simp [exportWeasyRun, h]
  · intro h
    simp [exportWeasyRun, h]
  · intro hne
    have hne2 : slides.isEmpty = false := by
      cases slides
      · exact absurd rfl hne
      · rfl
    constructor
    · cases h : write (create_pdf (pyReplace fn dotPdf []) slides) <;>
        simp [exportReportRun, hne2, h]
    · intro h
      simp [exportReportRun, hne2, h]
  · intro hbtn hh
    rw [run_eq]
    simp [hh, hbtn]
  · intro hbtn hh
    rw [run_eq]
    simp [hh, hbtn]

/-- Witness for C3 (amended) at the concrete oracles. -/
theorem claim_C3_witness :
    (exportWeasyRun ('H' :: []) "deck.pdf".data weasyOk).downloads =
      [("WPDF".data, "deck.pdf".data)] ∧
    (exportReportRun "deck.pdf".data slA reportOk).libCalls =
      [.reportlab (pyReplace "deck.pdf".data dotPdf []) slA] :=
  ⟨((claim_C3_export_calls ('H' :: []) "deck.pdf".data "WPDF".data weasyOk slA
      reportOk baseEnv s0).1).2 rfl,
   ((claim_C3_export_calls ('H' :: []) "deck.pdf".data "WPDF".data weasyOk slA
      reportOk baseEnv s0).2.1 (by decide)).1⟩

/-- C4: for every export attempt, whether the PDF library call succeeds or
raises, the temporary file does not survive the handler (the `finally`
removal runs when the file exists); and when the library raises, the
failure message is shown and no download is offered. -/
theorem claim_C4_cleanup (html fn : Str) (call : Str → Except String Str)
    (slides : List Slide) (write : List Page → Except String Str) (m : String) :
    ((exportWeasyRun html fn call).tmpExistsAfter = false ∧
      (call html = .error m →
        (exportWeasyRun html fn call).errors = [failMsg m] ∧
        (exportWeasyRun html fn call).downloads = [])) ∧
    ((exportReportRun fn slides write).tmpExistsAfter = false ∧
      (slides ≠ [] →
        write (create_pdf (pyReplace fn dotPdf []) slides) = .error m →
        (exportReportRun fn slides write).errors = [failMsg m] ∧
        (exportReportRun fn slides write).downloads = [])) := by
  refine ⟨⟨?_, ?_⟩, ?_, ?_⟩
  · cases h : call html <;> simp [exportWeasyRun, h]
  · intro h
    simp [exportWeasyRun, h]
  · cases hse : slides.isEmpty
    · cases h : write (create_pdf (pyReplace fn dotPdf []) slides) <;>
        simp [exportReportRun, hse, h]
    · simp [exportReportRun, hse]
  · intro hne h
    have hne2 : slides.isEmpty = false := by
      cases slides
      · exact absurd rfl hne
      · rfl
    simp [exportReportRun, hne2, h]

/-- Witness for C4 with raising oracles (and the success-side cleanup). -/
theorem claim_C4_witness :
    (exportWeasyRun ('H' :: []) "deck.pdf".data weasyBad).tmpExistsAfter = false ∧
    (exportWeasyRun ('H' :: []) "deck.pdf".data weasyBad).errors = [failMsg "boom"] ∧
    (exportReportRun "deck.pdf".data slA reportBad).downloads = [] :=
  ⟨(claim_C4_cleanup ('H' :: []) "deck.pdf".data weasyBad slA reportBad "boom").1.1,
   ((claim_C4_cleanup ('H' :: []) "deck.pdf".data weasyBad slA reportBad "boom").1.2 rfl).1,
   ((claim_C4_cleanup ('H' :: []) "deck.pdf".data weasyBad slA reportBad "boom").2.2
      (by decide) rfl).2⟩

/-- C7: the ReportLab export outcome depends only on the file name, the
slide box contents and their parse, the click and the write oracle — not on
the generated HTML string — and when the JSON is absent or fails to parse a
click makes no ReportLab library call while an error is shown. -/
theorem claim_C7_reportlab_json :
    (∀ e1 e2 s1 s2,
      e1.file_name = e2.file_name → e1.slide_data_raw = e2.slide_data_raw →
      e1.jsonParse = e2.jsonParse → e1.reportWrite = e2.reportWrite →
      e1.report_btn = e2.report_btn →
      (htmlShown e1 s1).isEmpty = false → (htmlShown e2 s2).isEmpty = false →
      (run e1 s1).reportExport = (run e2 s2).reportExport) ∧
    (∀ e s, e.report_btn = true → (htmlShown e s).isEmpty = false →
      ((pyStrip e.slide_data_raw).isEmpty = true ∨ (∃ m, e.jsonParse = .error m)) →
      (run e s).reportExport.libCalls = [] ∧
      "Please provide slide data in JSON format for ReportLab PDF export." ∈
        (run e s).errors ∧
      (∀ m, e.jsonParse = .error m → (pyStrip e.slide_data_raw).isEmpty = false →
        jsonMsg m ∈ (run e s).errors)) := by
  constructor
  · intro e1 e2 s1 s2 hf hsr hj hw hb h1 h2
    have hps : parsedSlides e1 = parsedSlides e2 := by
      simp [parsedSlides, hsr, hj]
    rw [run_eq, run_eq]
    simp only [h1, h2, Bool.false_eq_true, if_false]
    rw [hf, hps, hw, hb]
  · intro e s hbtn hh hbad
    have hps : parsedSlides e = [] := by
      rcases hbad with h | ⟨m, hm⟩
      · simp [parsedSlides, h]
      · simp [parsedSlides, hm]
    have hre : (run e s).reportExport = exportReportRun e.file_name [] e.reportWrite := by
      rw [run_eq]
      simp [hh, hbtn, hps]
    have herr : (run e s).errors =
        (genStep e s).2.2.2 ++
        (if e.weasy_btn then exportWeasyRun (htmlShown e s) e.file_name e.weasyCall
         else noExport).errors ++
        jsonErrors e ++ (exportReportRun e.file_name [] e.reportWrite).errors := by
      rw [run_eq]
      simp [hh, hbtn, hps]
    refine ⟨?_, ?_, ?_⟩
    · rw [hre]
      simp [exportReportRun]
    · rw [herr]
      simp [exportReportRun]
    · intro m hm hns
      rw [herr]
      have hje : jsonErrors e = [jsonMsg m] := by
        simp [jsonErrors, hns, hm]
      rw [hje]
      simp

/-- Witness for C7: a ReportLab click with a blank slide box and HTML
present makes no library call and shows the error. -/
theorem claim_C7_witness :
    (run eRepBlank sH).reportExport.libCalls = [] ∧
    "Please provide slide data in JSON format for ReportLab PDF export." ∈
      (run eRepBlank sH).errors :=
  ⟨(claim_C7_reportlab_json.2 eRepBlank sH rfl (by decide) (Or.inl (by decide))).1,
   (claim_C7_reportlab_json.2 eRepBlank sH rfl (by decide) (Or.inl (by decide))).2.1⟩

end PresConv
